import Mathlib

/-!
Formal model of the SICA chat client.

The development embeds the two source files of the repository:

* `src/tools.tsx` — the tool registry (`functionDeclarations`), the seven
  mock tool executors and the dispatcher `callTool`;
* `src/unnamed/part_000` — the orchestration loop `handleFormSubmit`,
  which drives repeated model invocations, dispatches requested tool
  calls with a per-call catch, and maintains the conversation history.

Effectful primitives of the environment (Math.random, Date, fetch) are
modelled by an explicit `Env` record supplied per call; fallible code
returns `Except`.
-/

namespace SICA

/-- JavaScript-like runtime values: tool arguments and tool results are
arbitrary structured mappings in the source. -/
inductive Value where
  | str : String → Value
  | num : Int → Value
  | bool : Bool → Value
  | null : Value
  | undef : Value
  | arr : List Value → Value
  | obj : List (String × Value) → Value

mutual

/-- JavaScript template-literal stringification, as used by the
backtick templates in `src/tools.tsx`. -/
def jsToString : Value → String
  | .str s => s
  | .num n => toString n
  | .bool b => if b then "true" else "false"
  | .null => "null"
  | .undef => "undefined"
  | .arr l => jsJoin l
  | .obj _ => "[object Object]"

/-- Array stringification: elements joined by commas. -/
def jsJoin : List Value → String
  | [] => ""
  | [v] => jsToString v
  | v :: vs => jsToString v ++ "," ++ jsJoin vs

end

/-- An argument payload: a JavaScript object, i.e. a field map
(`Record<string, any>` in the source). -/
abbrev Args := List (String × Value)

/-- Property lookup on an argument object. -/
def lookupArg (args : Args) (k : String) : Option Value :=
  (args.find? (fun p => p.1 == k)).map Prod.snd

/-- Property access in JavaScript: an absent property reads as
`undefined`. -/
def argVal (args : Args) (k : String) : Value :=
  (lookupArg args k).getD Value.undef

/-- A repository record as delivered by the GitHub search API
(the fields read by `search_github_repo`). -/
structure RepoItem where
  full_name : String
  html_url : String
  description : Value
  stargazers_count : Int

/-- Outcome of the `fetch` performed by `search_github_repo`:
either a successful response (`response.ok` with parsed JSON data),
a non-success HTTP status (with the error body message), or a network
failure in which `fetch` itself rejects with an error message. -/
inductive FetchOutcome where
  | ok (total_count : Int) (items : List RepoItem)
  | httpError (status : Nat) (message : String)
  | netError (message : String)

/-- The effectful environment of one tool call: the value of
`Math.floor(Math.random() * 40)` drawn by `getWeather`, the string
produced by `new Date().toLocaleTimeString()`, and the outcome of the
GitHub `fetch`. -/
structure Env where
  rand40 : Fin 40
  timeStr : String
  fetch : FetchOutcome

/-- A tool schema of the registry: name, description and required
parameter names (`functionDeclarations` in `src/tools.tsx`). -/
structure ToolSpec where
  name : String
  description : String
  required : List String

/-- The static tool registry, in source order. -/
def functionDeclarations : List ToolSpec :=
  [ ⟨"getWeather", "Get the current weather in a given location.", ["location"]⟩,
    ⟨"getCurrentTime", "Get the current time in a given location.", ["location"]⟩,
    ⟨"controlFan", "Control the speed and mode of a fan.", ["speed", "mode"]⟩,
    ⟨"search_github_repo",
      "Find best practices in open-source repositories and documentation.",
      ["search_term"]⟩,
    ⟨"execute_code",
      "Execute Python code in a sandboxed environment for immediate testing and efficiency verification (use computer).",
      ["code_block"]⟩,
    ⟨"retrieve_knowledge",
      "Search and retrieve architectural expertise and lessons learned from long-term memory (Vector DB).",
      ["query"]⟩,
    ⟨"perform_code_critique",
      "Analyze execution logs and provide feedback or lessons learned from the code execution.",
      ["code_block", "execution_logs"]⟩ ]

/-- The names handled by the dispatcher switch in `callTool`. -/
def registeredToolNames : List String :=
  ["getWeather", "getCurrentTime", "controlFan", "search_github_repo",
   "execute_code", "retrieve_knowledge", "perform_code_critique"]

/-- Mock `getWeather`: `temp = Math.floor(Math.random()*40) + 10`,
default unit fahrenheit, temperature string built by a template
literal, location echoed. -/
def getWeather (env : Env) (args : Args) : Value :=
  let temp : Nat := env.rand40.val + 10
  let unit : Value :=
    match lookupArg args "unit" with
    | none => Value.str "fahrenheit"
    | some Value.undef => Value.str "fahrenheit"
    | some v => v
  let suffix : String :=
    match unit with
    | Value.str "celsius" => "C"
    | _ => "F"
  Value.obj
    [("temperature", Value.str (toString temp ++ "° " ++ suffix)),
     ("location", argVal args "location")]

/-- Mock `getCurrentTime`: current locale time string plus the echoed
location. -/
def getCurrentTime (env : Env) (args : Args) : Value :=
  Value.obj [("time", Value.str env.timeStr), ("location", argVal args "location")]

/-- Mock `controlFan`: always succeeds with a templated message. -/
def controlFan (args : Args) : Value :=
  Value.obj
    [("status", Value.str "success"),
     ("message", Value.str
       ("Fan set to " ++ jsToString (argVal args "speed") ++
        "% speed in " ++ jsToString (argVal args "mode") ++ " mode."))]

/-- The failure payload returned by the catch block of
`search_github_repo`. -/
def githubFailure (msg : String) : Value :=
  Value.obj
    [("status", Value.str "failure"),
     ("error", Value.str ("GitHub API request failed: " ++ msg)),
     ("message", Value.str "Could not fetch repository data from GitHub.")]

/-- The executor `search_github_repo`: on a successful fetch maps the items to
name/url/description/stars records; on a non-ok status it throws a
`GitHub API error!` message inside its own try, and any thrown error is
caught and converted to the structured failure payload. -/
def search_github_repo (env : Env) (_args : Args) : Value :=
  match env.fetch with
  | FetchOutcome.ok tc items =>
      Value.obj
        [("status", Value.str "success"),
         ("results_count", Value.num tc),
         ("top_results", Value.arr (items.map (fun r =>
            Value.obj
              [("name", Value.str r.full_name),
               ("url", Value.str r.html_url),
               ("description", r.description),
               ("stars", Value.num r.stargazers_count)]))),
         ("message", Value.str
           ("Found " ++ toString tc ++ " repositories. Returning top 5 sorted by stars."))]
  | FetchOutcome.httpError status msg =>
      githubFailure ("GitHub API error! status: " ++ toString status ++ ", message: " ++ msg)
  | FetchOutcome.netError msg =>
      githubFailure msg

/-- Mock `execute_code`: always succeeds, echoing the code block. -/
def execute_code (args : Args) : Value :=
  Value.obj
    [("status", Value.str "success"),
     ("output", Value.str
       ("[Mock Execution] Code block received:\n---\n" ++
        jsToString (argVal args "code_block") ++ "\n---")),
     ("error", Value.null),
     ("message", Value.str "Code executed in a mocked secure environment.")]

/-- Mock `retrieve_knowledge`: canned knowledge string echoing the
query. -/
def retrieve_knowledge (args : Args) : Value :=
  Value.obj
    [("knowledge", Value.str
      ("Mock knowledge retrieved for query: \x27" ++
       jsToString (argVal args "query") ++
       "\x27. SICA agents should be modular."))]

/-- The sentence appended by `perform_code_critique` when the logs
contain "error" (case-insensitively). -/
def lessonStr : String :=
  "Lesson Learned: The code failed. It\x27s crucial to implement robust error handling, perhaps with try-catch blocks, to manage unexpected failures gracefully."

/-- The sentence appended by `perform_code_critique` otherwise. -/
def goodStartStr : String :=
  "This is a good start, but consider adding more comments and edge case handling for production environments."

/-- JavaScript `String.prototype.includes`: substring containment. -/
def jsIncludes (s sub : String) : Bool :=
  decide (sub.data <:+: s.data)

/-- The critique text built by `perform_code_critique`: the template
header embedding the code block and the logs, followed by the lesson
sentence when the lowercased logs contain "error", the good-start
sentence otherwise. -/
def critiqueText (code_block execution_logs : String) : String :=
  "Critique for code:\n---\n" ++ code_block ++ "\n---\nBased on logs:\n---\n" ++
    execution_logs ++ "\n---\n" ++
    (if jsIncludes execution_logs.toLower "error" then lessonStr else goodStartStr)

/-- Mock `perform_code_critique` on its typed payload (both declared
parameters are strings in the source). -/
def perform_code_critique (code_block execution_logs : String) : Value :=
  Value.obj [("critique", Value.str (critiqueText code_block execution_logs))]

/-- The dispatcher `callTool`: a switch over the function name; the
default case throws `Unknown function: <name>` (modelled as
`Except.error`). The critique case first reads its `execution_logs`
string — a non-string value would make `.toLowerCase()` throw a
TypeError at runtime, modelled as an error as well. -/
def callTool (env : Env) (functionName : String) (args : Args) : Except String Value :=
  if functionName = "getWeather" then Except.ok (getWeather env args)
  else if functionName = "getCurrentTime" then Except.ok (getCurrentTime env args)
  else if functionName = "controlFan" then Except.ok (controlFan args)
  else if functionName = "search_github_repo" then Except.ok (search_github_repo env args)
  else if functionName = "execute_code" then Except.ok (execute_code args)
  else if functionName = "retrieve_knowledge" then Except.ok (retrieve_knowledge args)
  else if functionName = "perform_code_critique" then
    match argVal args "execution_logs" with
    | Value.str logs =>
        Except.ok (perform_code_critique (jsToString (argVal args "code_block")) logs)
    | _ => Except.error "execution_logs.toLowerCase is not a function"
  else Except.error ("Unknown function: " ++ functionName)

/-- One tool-call request produced by the model
(`call.name` / `call.args`). -/
structure ToolCallRequest where
  name : String
  args : Args

/-- One model response: its text and its (possibly empty) list of
function calls. -/
structure ModelResponse where
  text : String
  functionCalls : List ToolCallRequest

/-- A turn of the conversation history (`Content` values pushed onto
the local `history` array): the initial user message, a model content
carrying function calls, a `role:"tool"` content carrying the batch of
function responses, or a plain model text content. The source never
pushes a plain model text content; the constructor exists because the
written data model names such a turn. -/
inductive Turn where
  | userText : String → Turn
  | modelToolCallBatch : List ToolCallRequest → Turn
  | toolResultBatch : List (String × Value) → Turn
  | modelText : String → Turn

/-- One rendering event emitted through `addMessage`. -/
inductive DisplayEvent where
  | userMsg : String → DisplayEvent
  | toolCall : String → Args → DisplayEvent
  | toolResult : String → Value → DisplayEvent
  | modelMsg : String → DisplayEvent

/-- The payload built by the loop catch block when a tool call throws:
`{error: "Function Execution Failed: <message>"}`. -/
def functionExecutionFailed (msg : String) : Value :=
  Value.obj [("error", Value.str ("Function Execution Failed: " ++ msg))]

/-- The dispatch as performed inside the loop: `callTool` guarded by
the per-call try/catch, which converts a thrown error into the
`Function Execution Failed` payload pushed in its place. -/
def dispatchCaught (env : Env) (functionName : String) (args : Args) : Value :=
  match callTool env functionName args with
  | Except.ok v => v
  | Except.error msg => functionExecutionFailed msg

/-- The sequential `for (const call of functionCalls)` body: one
`(name, response)` pair per request, in request order, using the
environment drawn for that call. -/
def processCalls (envf : Nat → Env) : Nat → List ToolCallRequest → List (String × Value)
  | _, [] => []
  | i, c :: cs =>
      (c.name, dispatchCaught (envf i) c.name c.args) :: processCalls envf (i + 1) cs

/-- The rendering events of one AwaitingTools phase: a tool-call
announcement followed by a tool-result announcement, per call. -/
def callEvents : List ToolCallRequest → List (String × Value) → List DisplayEvent
  | [], _ => []
  | _ :: _, [] => []
  | c :: cs, r :: rs =>
      DisplayEvent.toolCall c.name c.args :: DisplayEvent.toolResult r.1 r.2 ::
        callEvents cs rs

/-- The observable outcome of one `handleFormSubmit` run: the final
conversation history, the histories sent to the model (one per
`generateContent` call), the rendering events, and the final model text
(`none` when the model call itself failed and the outer catch fired). -/
structure LoopOut where
  history : List Turn
  contexts : List (List Turn)
  events : List DisplayEvent
  final : Option String

/-- The `while (functionCalls.length > 0)` loop. The script pairs each
successive model response with the environment oracle for the tool
calls it triggers; an exhausted script models a failing
`generateContent` call, which the outer catch turns into the generic
failure notice without touching the history structure. -/
def runLoop : List (ModelResponse × (Nat → Env)) → List Turn → LoopOut
  | [], h =>
      ⟨h, [], [DisplayEvent.modelMsg "An error occurred. Please check the console."], none⟩
  | (r, envf) :: rest, h =>
      if r.functionCalls.isEmpty then
        ⟨h, [], [DisplayEvent.modelMsg r.text], some r.text⟩
      else
        let results := processCalls envf 0 r.functionCalls
        let h2 := h ++ [Turn.modelToolCallBatch r.functionCalls,
                        Turn.toolResultBatch results]
        let out := runLoop rest h2
        ⟨out.history, h2 :: out.contexts,
         callEvents r.functionCalls results ++ out.events, out.final⟩

/-- JavaScript `String.prototype.trim`: strip leading and trailing
whitespace. -/
def jsTrim (s : String) : String :=
  ⟨((s.data.dropWhile Char.isWhitespace).reverse.dropWhile Char.isWhitespace).reverse⟩

/-- The handler `handleFormSubmit`: trims the input, bails out on an empty prompt,
renders the user message, creates a fresh local history containing just
the user turn, sends it to the model and enters the loop. -/
def handleFormSubmit (input : String) (script : List (ModelResponse × (Nat → Env))) :
    LoopOut :=
  let prompt := jsTrim input
  if prompt = "" then ⟨[], [], [], none⟩
  else
    let h0 := [Turn.userText prompt]
    let out := runLoop script h0
    ⟨out.history, h0 :: out.contexts,
     DisplayEvent.userMsg prompt :: out.events, out.final⟩

/-- A session: successive form submissions, each running
`handleFormSubmit` with its own freshly created `history` local. -/
def runSession (subs : List (String × List (ModelResponse × (Nat → Env)))) :
    List LoopOut :=
  subs.map (fun s => handleFormSubmit s.1 s.2)

/-- Whether the fetch of `search_github_repo` failed: the network
rejected, or the response had a non-success status. -/
def fetchFailed : FetchOutcome → Bool
  | FetchOutcome.ok _ _ => false
  | FetchOutcome.httpError _ _ => true
  | FetchOutcome.netError _ => true

/-- The message of the error caught by `search_github_repo`, per fetch
outcome: the `GitHub API error!` message thrown on a non-ok status, or
the message of the rejected fetch. (Unused on the success path.) -/
def fetchErrMsg : FetchOutcome → String
  | FetchOutcome.ok _ _ => ""
  | FetchOutcome.httpError status msg =>
      "GitHub API error! status: " ++ toString status ++ ", message: " ++ msg
  | FetchOutcome.netError msg => msg

/-- Whether a turn is a plain model text turn. -/
def Turn.isModelText : Turn → Bool
  | Turn.modelText _ => true
  | _ => false

/-- A concrete environment for witnesses. -/
def env0 : Env := ⟨⟨0, by decide⟩, "12:00:00 PM", FetchOutcome.netError "Failed to fetch"⟩

/-- A second, different concrete environment. -/
def env1 : Env := ⟨⟨39, by decide⟩, "3:15:09 AM", FetchOutcome.ok 1 []⟩

/-- Constant environment oracle for witnesses. -/
def envf0 : Nat → Env := fun _ => env0

/-- A concrete two-response model script for witnesses: one tool call,
then a final text answer. -/
def demoScript : List (ModelResponse × (Nat → Env)) :=
  [(⟨"", [⟨"getCurrentTime", [("location", Value.str "Tokyo")]⟩]⟩, envf0),
   (⟨"done", []⟩, envf0)]

/-!
## Helper lemmas
-/

/-- On an unregistered name, the dispatcher throws and the loop catch
converts the thrown `Unknown function` error into a failure payload. -/
theorem dispatchCaught_unknown (env : Env) (n : String) (args : Args)
    (hn : n ∉ registeredToolNames) :
    dispatchCaught env n args = functionExecutionFailed ("Unknown function: " ++ n) := by
  simp only [registeredToolNames, List.mem_cons, List.not_mem_nil, or_false] at hn
  push_neg at hn
  obtain ⟨h1, h2, h3, h4, h5, h6, h7⟩ := hn
  simp [dispatchCaught, callTool, h1, h2, h3, h4, h5, h6, h7]

/-- Unfolding of one loop iteration whose response carries at least one
tool call. -/
theorem runLoop_cons_of_ne (txt : String) (calls : List ToolCallRequest)
    (envf : Nat → Env) (rest : List (ModelResponse × (Nat → Env)))
    (h : List Turn) (hc : calls ≠ []) :
    runLoop ((⟨txt, calls⟩, envf) :: rest) h =
      ⟨(runLoop rest (h ++ [Turn.modelToolCallBatch calls,
          Turn.toolResultBatch (processCalls envf 0 calls)])).history,
       (h ++ [Turn.modelToolCallBatch calls,
          Turn.toolResultBatch (processCalls envf 0 calls)]) ::
         (runLoop rest (h ++ [Turn.modelToolCallBatch calls,
            Turn.toolResultBatch (processCalls envf 0 calls)])).contexts,
       callEvents calls (processCalls envf 0 calls) ++
         (runLoop rest (h ++ [Turn.modelToolCallBatch calls,
            Turn.toolResultBatch (processCalls envf 0 calls)])).events,
       (runLoop rest (h ++ [Turn.modelToolCallBatch calls,
          Turn.toolResultBatch (processCalls envf 0 calls)])).final⟩ := by
  simp [runLoop, List.isEmpty_iff, hc]

/-- The starting history of a loop run is a prefix of its final
history. -/
theorem runLoop_history_extends (script : List (ModelResponse × (Nat → Env))) :
    ∀ h, h <+: (runLoop script h).history := by
  induction script with
  | nil => intro h; exact List.prefix_refl h
  | cons rc rest ih =>
    intro h
    obtain ⟨r, envf⟩ := rc
    by_cases he : r.functionCalls.isEmpty
    · simp [runLoop, he]
    · simp only [runLoop, he, Bool.false_eq_true, if_false]
      exact (List.prefix_append h _).trans (ih _)

/-- Every context sent to the model during a loop run extends the
starting history and is a prefix of the final history. -/
theorem runLoop_contexts_mem (script : List (ModelResponse × (Nat → Env))) :
    ∀ h c, c ∈ (runLoop script h).contexts →
      h <+: c ∧ c <+: (runLoop script h).history := by
  induction script with
  | nil => intro h c hc; simp [runLoop] at hc
  | cons rc rest ih =>
    intro h c hc
    obtain ⟨r, envf⟩ := rc
    by_cases he : r.functionCalls.isEmpty
    · simp [runLoop, he] at hc
    · simp only [runLoop, he, Bool.false_eq_true, if_false, List.mem_cons] at hc
      simp only [runLoop, he, Bool.false_eq_true, if_false]
      rcases hc with rfl | hc
      · exact ⟨List.prefix_append h _, runLoop_history_extends rest _⟩
      · have hih := ih _ _ hc
        exact ⟨(List.prefix_append h _).trans hih.1, hih.2⟩

/-- The call loop `processCalls` produces one result per request. -/
theorem processCalls_length (envf : Nat → Env) :
    ∀ (i : Nat) (calls : List ToolCallRequest),
      (processCalls envf i calls).length = calls.length := by
  intro i calls
  induction calls generalizing i with
  | nil => rfl
  | cons c cs ih => simp [processCalls, ih]

/-- The call loop `processCalls` keeps the request names, in request order. -/
theorem processCalls_names (envf : Nat → Env) :
    ∀ (i : Nat) (calls : List ToolCallRequest),
      (processCalls envf i calls).map Prod.fst = calls.map ToolCallRequest.name := by
  intro i calls
  induction calls generalizing i with
  | nil => rfl
  | cons c cs ih => simp [processCalls, ih]

/-- The `GitHub API request failed:` message is never the empty
string. -/
theorem githubError_ne_empty (m : String) :
    "GitHub API request failed: " ++ m ≠ "" := by
  intro hcontra
  have hd := congrArg String.data hcontra
  simp [String.data_append] at hd

/-!
## Claim theorems
-/

/-- C1: dispatch of an unregistered name never escapes the dispatcher
boundary uncaught: the per-call catch converts the thrown
`Unknown function` error into a failure-shaped result, that result is
surfaced to the model inside the next context sent to it, and the loop
continues instead of aborting. -/
theorem unknownTool_yields_failure_result (env : Env) (n : String) (args : Args)
    (txt : String) (rest : List (ModelResponse × (Nat → Env))) (h : List Turn)
    (hn : n ∉ registeredToolNames) :
    dispatchCaught env n args = functionExecutionFailed ("Unknown function: " ++ n) ∧
    (runLoop ((⟨txt, [⟨n, args⟩]⟩, fun _ => env) :: rest) h).contexts.head? =
      some (h ++ [Turn.modelToolCallBatch [⟨n, args⟩],
        Turn.toolResultBatch
          [(n, functionExecutionFailed ("Unknown function: " ++ n))]]) ∧
    (runLoop ((⟨txt, [⟨n, args⟩]⟩, fun _ => env) :: rest) h).final =
      (runLoop rest (h ++ [Turn.modelToolCallBatch [⟨n, args⟩],
        Turn.toolResultBatch
          [(n, functionExecutionFailed ("Unknown function: " ++ n))]])).final := by
  have hd := dispatchCaught_unknown env n args hn
  refine ⟨hd, ?_, ?_⟩
  · rw [runLoop_cons_of_ne txt [⟨n, args⟩] (fun _ => env) rest h (by simp)]
    simp [processCalls, hd]
  · rw [runLoop_cons_of_ne txt [⟨n, args⟩] (fun _ => env) rest h (by simp)]
    simp [processCalls, hd]

/-- C1 witness: dispatching the unregistered name "frobnicate" yields
exactly the caught failure payload. -/
theorem unknownTool_yields_failure_result_witness :
    ("frobnicate" ∉ registeredToolNames) ∧
    dispatchCaught env0 "frobnicate" [] =
      functionExecutionFailed ("Unknown function: " ++ "frobnicate") :=
  ⟨by decide,
   (unknownTool_yields_failure_result env0 "frobnicate" [] "" [] [] (by decide)).1⟩

/-- C7: `getWeather` called with only a location returns a temperature
string `<n>° F` for the drawn integer n with 10 ≤ n ≤ 49, and echoes
the location unchanged. -/
theorem getWeather_default_unit (env : Env) (L : String) :
    10 ≤ env.rand40.val + 10 ∧ env.rand40.val + 10 ≤ 49 ∧
    callTool env "getWeather" [("location", Value.str L)] =
      Except.ok (Value.obj
        [("temperature", Value.str (toString (env.rand40.val + 10) ++ "° F")),
         ("location", Value.str L)]) := by
  refine ⟨Nat.le_add_left 10 _, ?_, ?_⟩
  · have := env.rand40.isLt; omega
  · simp [callTool, getWeather, lookupArg, argVal, List.find?, String.append_assoc]

/-- C8: `controlFan` returns a success status and the exact templated
message; in particular speed 75 in mode "high" gives
"Fan set to 75% speed in high mode.". -/
theorem controlFan_message (env : Env) (s : Int) (m : String) :
    callTool env "controlFan" [("speed", Value.num s), ("mode", Value.str m)] =
      Except.ok (Value.obj
        [("status", Value.str "success"),
         ("message", Value.str
           ("Fan set to " ++ toString s ++ "% speed in " ++ m ++ " mode."))]) ∧
    callTool env "controlFan" [("speed", Value.num 75), ("mode", Value.str "high")] =
      Except.ok (Value.obj
        [("status", Value.str "success"),
         ("message", Value.str "Fan set to 75% speed in high mode.")]) := by
  constructor
  · simp [callTool, controlFan, lookupArg, argVal, List.find?, jsToString,
      String.append_assoc]
  · rfl

/-- C9: a failed dispatch with an unregistered name is deterministic:
two runs, even under different effect environments, produce structurally
identical failure payloads with the same error message. -/
theorem failed_dispatch_deterministic (e1 e2 : Env) (n : String) (args : Args)
    (hn : n ∉ registeredToolNames) :
    dispatchCaught e1 n args = dispatchCaught e2 n args ∧
    dispatchCaught e1 n args = functionExecutionFailed ("Unknown function: " ++ n) := by
  have k1 := dispatchCaught_unknown e1 n args hn
  have k2 := dispatchCaught_unknown e2 n args hn
  exact ⟨k1.trans k2.symm, k1⟩

/-- C9 witness: the same unknown-name dispatch repeated under two
different environments gives the same payload. -/
theorem failed_dispatch_deterministic_witness :
    ("no_such_tool" ∉ registeredToolNames) ∧
    dispatchCaught env0 "no_such_tool" [("x", Value.num 3)] =
      dispatchCaught env1 "no_such_tool" [("x", Value.num 3)] :=
  ⟨by decide,
   (failed_dispatch_deterministic env0 env1 "no_such_tool" [("x", Value.num 3)]
     (by decide)).1⟩

/-- C2: the batch of tool results produced for one model turn has
exactly one result per request, in the same order, each carrying the
corresponding request name; the history sent to the model next extends
the previous history by the call batch immediately followed by that
result batch. -/
theorem toolResultBatch_pairs_requests (envf : Nat → Env) (i : Nat)
    (calls : List ToolCallRequest) (txt : String)
    (rest : List (ModelResponse × (Nat → Env))) (h : List Turn)
    (hc : calls ≠ []) :
    (processCalls envf i calls).length = calls.length ∧
    (processCalls envf i calls).map Prod.fst = calls.map ToolCallRequest.name ∧
    (runLoop ((⟨txt, calls⟩, envf) :: rest) h).contexts.head? =
      some (h ++ [Turn.modelToolCallBatch calls,
        Turn.toolResultBatch (processCalls envf 0 calls)]) := by
  refine ⟨processCalls_length envf i calls, processCalls_names envf i calls, ?_⟩
  rw [runLoop_cons_of_ne txt calls envf rest h hc]
  rfl

/-- C2 witness: a concrete two-request batch is answered by a
two-result batch with matching names and appended to the context. -/
theorem toolResultBatch_pairs_requests_witness :
    ([⟨"getCurrentTime", []⟩, ⟨"bogus", []⟩] : List ToolCallRequest) ≠ [] ∧
    (processCalls envf0 0 [⟨"getCurrentTime", []⟩, ⟨"bogus", []⟩]).length =
      ([⟨"getCurrentTime", []⟩, ⟨"bogus", []⟩] : List ToolCallRequest).length ∧
    (processCalls envf0 0 [⟨"getCurrentTime", []⟩, ⟨"bogus", []⟩]).map Prod.fst =
      ([⟨"getCurrentTime", []⟩, ⟨"bogus", []⟩] : List ToolCallRequest).map
        ToolCallRequest.name :=
  ⟨by simp,
   (toolResultBatch_pairs_requests envf0 0 [⟨"getCurrentTime", []⟩, ⟨"bogus", []⟩]
     "" [] [] (by simp)).1,
   (toolResultBatch_pairs_requests envf0 0 [⟨"getCurrentTime", []⟩, ⟨"bogus", []⟩]
     "" [] [] (by simp)).2.1⟩

/-- C5: the history is append-only across the loop: the starting
history is a prefix of the final one, the number of turns never
decreases, and every context sent during the run both extends the
starting history and is a prefix of the final history — appended turns
are never mutated or removed. -/
theorem history_append_only (script : List (ModelResponse × (Nat → Env)))
    (h : List Turn) :
    h <+: (runLoop script h).history ∧
    h.length ≤ (runLoop script h).history.length ∧
    ∀ c ∈ (runLoop script h).contexts,
      h <+: c ∧ c <+: (runLoop script h).history :=
  ⟨runLoop_history_extends script h,
   (runLoop_history_extends script h).length_le,
   fun c hc => runLoop_contexts_mem script h c hc⟩

/-- C5 witness: on a concrete run the starting history is a prefix of
the final history and of the recorded context. -/
theorem history_append_only_witness :
    [Turn.userText "hi"] <+: (runLoop demoScript [Turn.userText "hi"]).history ∧
    [Turn.userText "hi"] <+:
      (runLoop demoScript [Turn.userText "hi"]).contexts.get ⟨0, by decide⟩ :=
  ⟨(history_append_only demoScript [Turn.userText "hi"]).1,
   ((history_append_only demoScript [Turn.userText "hi"]).2.2 _
     (List.get_mem _ _ _)).1⟩

/-- C3 counterexample: on the prompt "What time is it?" answered
immediately by text with zero tool calls, the loop terminates after a
single cycle and renders the text, but the final history contains zero
ModelText turns — the response is never appended to the conversation
history, contradicting "exactly one ModelText turn is appended". -/
theorem modelText_never_in_history_cex :
    (handleFormSubmit "What time is it?" [(⟨"It is noon.", []⟩, envf0)]).history =
      [Turn.userText "What time is it?"] ∧
    (handleFormSubmit "What time is it?" [(⟨"It is noon.", []⟩, envf0)]).final =
      some "It is noon." ∧
    (handleFormSubmit "What time is it?"
        [(⟨"It is noon.", []⟩, envf0)]).history.countP
      (fun t => t.isModelText) = 0 :=
  ⟨rfl, rfl, rfl⟩

/-- C3 (amended): whenever a model response contains zero tool-call
requests the loop renders the text, terminates after that single cycle
and returns the session to idle; the text is only appended to the
display log — no ModelText turn is appended to the conversation
history, which still holds exactly the user turn when this was the
first response. -/
theorem zero_calls_single_cycle (input txt : String) (envf : Nat → Env)
    (rest : List (ModelResponse × (Nat → Env))) (hp : jsTrim input ≠ "") :
    handleFormSubmit input ((⟨txt, []⟩, envf) :: rest) =
      ⟨[Turn.userText (jsTrim input)], [[Turn.userText (jsTrim input)]],
       [DisplayEvent.userMsg (jsTrim input), DisplayEvent.modelMsg txt],
       some txt⟩ := by
  simp [handleFormSubmit, runLoop, hp]

/-- C3 witness: the amended statement at the concrete scenario. -/
theorem zero_calls_single_cycle_witness :
    jsTrim "What time is it?" ≠ "" ∧
    handleFormSubmit "What time is it?" [(⟨"It is noon.", []⟩, envf0)] =
      ⟨[Turn.userText (jsTrim "What time is it?")],
       [[Turn.userText (jsTrim "What time is it?")]],
       [DisplayEvent.userMsg (jsTrim "What time is it?"),
        DisplayEvent.modelMsg "It is noon."],
       some "It is noon."⟩ :=
  ⟨by decide,
   zero_calls_single_cycle "What time is it?" "It is noon." envf0 [] (by decide)⟩

/-- C4 counterexample: in a session of two submissions, the only
context sent to the model for the second submission is the freshly
created history holding just the second user turn — the first
turn of the first submission is not included, contradicting "turns from earlier
user requests in the same session are included in later model
invocations". -/
theorem fresh_history_per_submission_cex :
    ((runSession
        [("first question", [(⟨"answer one", []⟩, envf0)]),
         ("second question", [(⟨"answer two", []⟩, envf0)])]).getD 1
      ⟨[], [], [], none⟩).contexts = [[Turn.userText "second question"]] ∧
    Turn.userText "first question" ∉ [Turn.userText "second question"] := by
  constructor
  · rfl
  · intro hmem
    rw [List.mem_singleton] at hmem
    injection hmem with hstr
    exact absurd hstr (by decide)

/-- C4 (amended): each form submission creates a fresh history scoped
to that submission: the first context it sends to the model is exactly
the single new user turn, every later context of the same submission
extends it, and a session is just the independent list of per-submission
runs — turns from earlier submissions are not carried over. -/
theorem history_scoped_to_submission (input : String)
    (script : List (ModelResponse × (Nat → Env)))
    (subs : List (String × List (ModelResponse × (Nat → Env))))
    (hp : jsTrim input ≠ "") :
    (handleFormSubmit input script).contexts.head? =
      some [Turn.userText (jsTrim input)] ∧
    (∀ c ∈ (handleFormSubmit input script).contexts,
      [Turn.userText (jsTrim input)] <+: c) ∧
    runSession subs = subs.map (fun s => handleFormSubmit s.1 s.2) := by
  refine ⟨?_, ?_, rfl⟩
  · simp [handleFormSubmit, hp]
  · intro c hc
    have hctx : (handleFormSubmit input script).contexts =
        [Turn.userText (jsTrim input)] ::
          (runLoop script [Turn.userText (jsTrim input)]).contexts := by
      simp [handleFormSubmit, hp]
    rw [hctx, List.mem_cons] at hc
    rcases hc with hceq | hc
    · exact hceq ▸ List.prefix_refl _
    · exact (runLoop_contexts_mem script [Turn.userText (jsTrim input)] c hc).1

/-- C4 witness: the amended statement at a concrete submission. -/
theorem history_scoped_to_submission_witness :
    jsTrim "hello" ≠ "" ∧
    (handleFormSubmit "hello" demoScript).contexts.head? =
      some [Turn.userText (jsTrim "hello")] :=
  ⟨by decide, (history_scoped_to_submission "hello" demoScript [] (by decide)).1⟩

/-- C6: when the fetch of `search_github_repo` fails (network rejection
or non-success status), the tool returns a result whose status is
"failure" with a non-empty error string; the loop does not abort, and
this failure result appears in the ToolResultBatch inside the next
context sent to the model. -/
theorem search_failure_surfaced (env : Env) (args : Args) (txt : String)
    (rest : List (ModelResponse × (Nat → Env))) (h : List Turn)
    (hf : fetchFailed env.fetch = true) :
    callTool env "search_github_repo" args =
      Except.ok (githubFailure (fetchErrMsg env.fetch)) ∧
    githubFailure (fetchErrMsg env.fetch) =
      Value.obj
        [("status", Value.str "failure"),
         ("error", Value.str ("GitHub API request failed: " ++ fetchErrMsg env.fetch)),
         ("message", Value.str "Could not fetch repository data from GitHub.")] ∧
    "GitHub API request failed: " ++ fetchErrMsg env.fetch ≠ "" ∧
    (runLoop ((⟨txt, [⟨"search_github_repo", args⟩]⟩, fun _ => env) :: rest)
        h).contexts.head? =
      some (h ++ [Turn.modelToolCallBatch [⟨"search_github_repo", args⟩],
        Turn.toolResultBatch
          [("search_github_repo", githubFailure (fetchErrMsg env.fetch))]]) ∧
    (runLoop ((⟨txt, [⟨"search_github_repo", args⟩]⟩, fun _ => env) :: rest)
        h).final =
      (runLoop rest (h ++ [Turn.modelToolCallBatch [⟨"search_github_repo", args⟩],
        Turn.toolResultBatch
          [("search_github_repo", githubFailure (fetchErrMsg env.fetch))]])).final := by
  have hcall : callTool env "search_github_repo" args =
      Except.ok (githubFailure (fetchErrMsg env.fetch)) := by
    cases hfo : env.fetch with
    | ok tc items => rw [hfo] at hf; simp [fetchFailed] at hf
    | httpError st m => simp [callTool, search_github_repo, hfo, fetchErrMsg]
    | netError m => simp [callTool, search_github_repo, hfo, fetchErrMsg]
  have hdisp : dispatchCaught env "search_github_repo" args =
      githubFailure (fetchErrMsg env.fetch) := by
    simp [dispatchCaught, hcall]
  refine ⟨hcall, rfl, githubError_ne_empty _, ?_, ?_⟩
  · rw [runLoop_cons_of_ne _ _ _ _ _ (by simp)]
    simp [processCalls, hdisp]
  · rw [runLoop_cons_of_ne _ _ _ _ _ (by simp)]
    simp [processCalls, hdisp]

/-- C6 witness: with an unreachable network the failure payload is
returned. -/
theorem search_failure_surfaced_witness :
    fetchFailed env0.fetch = true ∧
    callTool env0 "search_github_repo" [("search_term", Value.str "lean")] =
      Except.ok (githubFailure (fetchErrMsg env0.fetch)) :=
  ⟨rfl,
   (search_failure_surfaced env0 [("search_term", Value.str "lean")] "" [] [] rfl).1⟩

set_option maxRecDepth 8192 in
/-- The lesson sentence is not a suffix of any text that ends in the
good-start sentence. -/
theorem lesson_not_suffix (x : List Char) :
    ¬ lessonStr.data <:+ x ++ goodStartStr.data := by
  intro hs
  have hg : goodStartStr.data <:+ x ++ goodStartStr.data := List.suffix_append x _
  rcases List.suffix_or_suffix_of_suffix hs hg with hcase | hcase
  · have hlen := hcase.length_le
    have hnot : ¬ (lessonStr.data.length ≤ goodStartStr.data.length) := by decide
    exact hnot hlen
  · exact absurd hcase (by decide)

/-- C10: `perform_code_critique` returns a single critique field
embedding both the code block and the logs verbatim; the critique ends
with the lesson sentence exactly when the logs contain "error"
case-insensitively, and ends with the good-start sentence otherwise. -/
theorem code_critique_embeds_and_branches (env : Env) (cb logs : String) :
    callTool env "perform_code_critique"
        [("code_block", Value.str cb), ("execution_logs", Value.str logs)] =
      Except.ok (Value.obj [("critique", Value.str (critiqueText cb logs))]) ∧
    (∃ a b, critiqueText cb logs = a ++ cb ++ b) ∧
    (∃ a b, critiqueText cb logs = a ++ logs ++ b) ∧
    (lessonStr.data <:+ (critiqueText cb logs).data ↔
      jsIncludes logs.toLower "error" = true) ∧
    ((jsIncludes logs.toLower "error" = true ∧
        lessonStr.data <:+ (critiqueText cb logs).data) ∨
      (jsIncludes logs.toLower "error" = false ∧
        goodStartStr.data <:+ (critiqueText cb logs).data)) := by
  refine ⟨?_, ?_, ?_, ?_, ?_⟩
  · simp [callTool, argVal, lookupArg, List.find?, jsToString, perform_code_critique]
  · refine ⟨"Critique for code:\n---\n",
      "\n---\nBased on logs:\n---\n" ++ logs ++ "\n---\n" ++
        (if jsIncludes logs.toLower "error" then lessonStr else goodStartStr), ?_⟩
    simp [critiqueText, String.append_assoc]
  · refine ⟨"Critique for code:\n---\n" ++ cb ++ "\n---\nBased on logs:\n---\n",
      "\n---\n" ++
        (if jsIncludes logs.toLower "error" then lessonStr else goodStartStr), ?_⟩
    simp [critiqueText, String.append_assoc]
  · by_cases hinc : jsIncludes logs.toLower "error"
    · have hform : critiqueText cb logs =
          ("Critique for code:\n---\n" ++ cb ++ "\n---\nBased on logs:\n---\n" ++
            logs ++ "\n---\n") ++ lessonStr := by
        unfold critiqueText
        rw [if_pos hinc]
      rw [hform]
      simp only [String.data_append]
      exact iff_of_true (List.suffix_append _ _) hinc
    · have hform : critiqueText cb logs =
          ("Critique for code:\n---\n" ++ cb ++ "\n---\nBased on logs:\n---\n" ++
            logs ++ "\n---\n") ++ goodStartStr := by
        unfold critiqueText
        rw [if_neg hinc]
      rw [hform]
      simp only [String.data_append]
      exact iff_of_false (lesson_not_suffix _) (by simpa using hinc)
  · by_cases hinc : jsIncludes logs.toLower "error"
    · refine Or.inl ⟨hinc, ?_⟩
      have hform : critiqueText cb logs =
          ("Critique for code:\n---\n" ++ cb ++ "\n---\nBased on logs:\n---\n" ++
            logs ++ "\n---\n") ++ lessonStr := by
        unfold critiqueText
        rw [if_pos hinc]
      rw [hform]
      simp only [String.data_append]
      exact List.suffix_append _ _
    · refine Or.inr ⟨by simpa using hinc, ?_⟩
      have hform : critiqueText cb logs =
          ("Critique for code:\n---\n" ++ cb ++ "\n---\nBased on logs:\n---\n" ++
            logs ++ "\n---\n") ++ goodStartStr := by
        unfold critiqueText
        rw [if_neg hinc]
      rw [hform]
      simp only [String.data_append]
      exact List.suffix_append _ _

end SICA
